import Mathlib

/-!
Shallow embedding of the rgpio GPIO control library
(src/rgpiolib/src/lib.rs, module `gpio`).

The library talks to the Linux sysfs GPIO interface purely through the
filesystem: every public operation resolves a path, opens it, and performs a
single write or read.  We model the filesystem as a partial map from path
strings to file contents.  Opening a file for writing succeeds exactly when
the file exists (sysfs control files are materialized by the kernel; the
library opens them with write access and no create flag, so a missing file
yields a not-found I/O error).  A successful write replaces the file's
contents; a read returns them.

Rust-specific behaviors are transcribed faithfully:
  - `bool::to_string()` renders "true" / "false" (see `boolToString`);
  - `i32::to_string()` and the decimal interpolation of `format!` render the
    plain decimal form (modelled by `toString : Int -> String`);
  - `str::parse::<i32>()` accepts an optional sign followed by one or more
    ASCII digits, with no trimming, and reports empty / invalid-digit /
    overflow errors (see `parseI32`).
-/

namespace gpio

/-- Kinds of ParseIntError, mirroring `std::num::IntErrorKind` as far as
`str::parse::<i32>` can produce them. -/
inductive IntErrorKind where
  | empty
  | invalidDigit
  | posOverflow
  | negOverflow
  deriving DecidableEq, Repr

/-- Model of `std::num::ParseIntError`. -/
structure ParseIntError where
  kind : IntErrorKind
  deriving DecidableEq, Repr

/-- The `std::io::ErrorKind` values this library can encounter in the model:
a missing sysfs file on open/read, and the `InvalidData` kind that `read`
manufactures from a parse failure. -/
inductive IoErrorKind where
  | notFound
  | invalidData
  deriving DecidableEq, Repr

/-- Model of `std::io::Error`: a kind plus the optional wrapped source error
(`io::Error::new(kind, why)` preserves `why` for diagnostics). -/
structure IoError where
  kind : IoErrorKind
  source : Option ParseIntError
  deriving DecidableEq, Repr

/-- The library's error enum `GpioError` from lib.rs lines 120-124:
`Io(std::io::Error)` and `ParseInt(std::num::ParseIntError)`. -/
inductive GpioError where
  | Io (e : IoError)
  | ParseInt (e : ParseIntError)
  deriving DecidableEq, Repr

/-- `GpioResult<T> = Result<T, GpioError>`. -/
abbrev GpioResult (T : Type) : Type := Except GpioError T

/-- The `GpioPaths` enum from lib.rs lines 45-54. -/
inductive GpioPaths where
  | EXPORT
  | UNEXPORT
  | VALUE (num : Int)
  | DIRECTION (num : Int)

/-- `GpioPaths::as_str` from lib.rs lines 59-76.  The Rust code formats the
pin number via `format!("/sys/class/gpio/gpio{}/value", num)` (decimal
rendering of an `i32`), which `toString : Int -> String` models; the
`Box::leak` is only an ownership artifact and has no behavioral content. -/
def GpioPaths.as_str : GpioPaths → String
  | GpioPaths.EXPORT => "/sys/class/gpio/export"
  | GpioPaths.UNEXPORT => "/sys/class/gpio/unexport"
  | GpioPaths.VALUE num => "/sys/class/gpio/gpio" ++ toString num ++ "/value"
  | GpioPaths.DIRECTION num => "/sys/class/gpio/gpio" ++ toString num ++ "/direction"

/-- The `Directions` enum from lib.rs lines 92-95. -/
inductive Directions where
  | Input
  | Output

/-- `Directions::as_str` from lib.rs lines 100-105. -/
def Directions.as_str : Directions → String
  | Directions.Input => "in"
  | Directions.Output => "out"

/-- `Directions::as_bytes` from lib.rs lines 108-110: the byte view of
`as_str`.  Writing bytes of a string and writing the string coincide in the
model, so this is the identity on the serialized form. -/
def Directions.as_bytes (d : Directions) : String := d.as_str

/-- Rust's `bool::to_string()` (via the `Display` impl for `bool`):
`true` renders as "true" and `false` as "false". -/
def boolToString (signal : Bool) : String := if signal then "true" else "false"

/-- Rust's `str::parse::<i32>()`: an optional leading sign followed by one or
more ASCII digits, no trimming of whitespace, range-checked against the
32-bit two's-complement bounds.  The empty string reports the empty kind; a
lone sign or any non-digit character reports invalid-digit; out-of-range
magnitudes report positive/negative overflow. -/
def parseI32 (s : String) : Except ParseIntError Int :=
  match s.data with
  | [] => Except.error ⟨IntErrorKind.empty⟩
  | c :: rest =>
    let neg := c = '-'
    let digits := if c = '-' ∨ c = '+' then rest else c :: rest
    if digits.isEmpty then Except.error ⟨IntErrorKind.invalidDigit⟩
    else if digits.all Char.isDigit then
      let mag : Nat := digits.foldl (fun a d => a * 10 + (d.toNat - 48)) 0
      if neg then
        if mag ≤ 2 ^ 31 then Except.ok (-(mag : Int))
        else Except.error ⟨IntErrorKind.negOverflow⟩
      else
        if mag < 2 ^ 31 then Except.ok (mag : Int)
        else Except.error ⟨IntErrorKind.posOverflow⟩
    else Except.error ⟨IntErrorKind.invalidDigit⟩

/-- The filesystem the library acts on: a partial map from absolute path
strings to file contents.  `none` means the path does not exist. -/
def Fs : Type := String → Option String

/-- Replace the contents of path `p` with `s` (the effect of a successful
`write_all` on a sysfs control file), leaving every other path unchanged. -/
def writeFile (fs : Fs) (p s : String) : Fs :=
  fun q => if q = p then some s else fs q

/-- `open_file` from lib.rs lines 168-171: `OpenOptions::new().write(true)`
with no create flag, so opening succeeds exactly when the path exists and a
missing path is a not-found `io::Error`, converted to `GpioError::Io` by the
`?` operator through `From<io::Error>`.  The returned handle is modelled by
the path itself. -/
def open_file (fs : Fs) (filepath : String) : GpioResult String :=
  match fs filepath with
  | some _ => Except.ok filepath
  | none => Except.error (GpioError.Io ⟨IoErrorKind.notFound, none⟩)

/-- `fs::read_to_string`: the contents when the path exists, otherwise a
not-found `io::Error`. -/
def read_to_string (fs : Fs) (filepath : String) : Except IoError String :=
  match fs filepath with
  | some contents => Except.ok contents
  | none => Except.error ⟨IoErrorKind.notFound, none⟩

/-- `gpio::export` from lib.rs lines 202-208: open the export path and write
`gpio_num.to_string()` to it.  Returns the result paired with the filesystem
after the call. -/
def export_pin (fs : Fs) (gpio_num : Int) : GpioResult Unit × Fs :=
  match open_file fs GpioPaths.EXPORT.as_str with
  | Except.error e => (Except.error e, fs)
  | Except.ok file => (Except.ok (), writeFile fs file (toString gpio_num))

/-- `gpio::unexport` from lib.rs lines 239-245: open the unexport path and
write `gpio_num.to_string()` to it. -/
def unexport (fs : Fs) (gpio_num : Int) : GpioResult Unit × Fs :=
  match open_file fs GpioPaths.UNEXPORT.as_str with
  | Except.error e => (Except.error e, fs)
  | Except.ok file => (Except.ok (), writeFile fs file (toString gpio_num))

/-- `gpio::write` from lib.rs lines 261-267: open the pin's value path and
write `signal.to_string()` — the Rust `Display` form of the bool — to it. -/
def write (fs : Fs) (gpio_num : Int) (signal : Bool) : GpioResult Unit × Fs :=
  match open_file fs (GpioPaths.VALUE gpio_num).as_str with
  | Except.error e => (Except.error e, fs)
  | Except.ok file => (Except.ok (), writeFile fs file (boolToString signal))

/-- `gpio::set_direction` from lib.rs lines 321-325: open the pin's direction
path and write `direction.as_bytes()` to it. -/
def set_direction (fs : Fs) (gpio_num : Int) (direction : Directions) :
    GpioResult Unit × Fs :=
  match open_file fs (GpioPaths.DIRECTION gpio_num).as_str with
  | Except.error e => (Except.error e, fs)
  | Except.ok file => (Except.ok (), writeFile fs file direction.as_bytes)

/-- `gpio::read` from lib.rs lines 281-290: read the whole value file, parse
the (untrimmed) contents with `parse::<i32>`, turn a parse failure into
`io::Error::new(ErrorKind::InvalidData, why)` inside the `and_then`, convert
any `io::Error` to `GpioError::Io` via `map_err(GpioError::from)`, and map a
parsed value `val` to the bool `val > 0`. -/
def read (fs : Fs) (gpio_num : Int) : GpioResult Bool :=
  let value : GpioResult Int :=
    match read_to_string fs (GpioPaths.VALUE gpio_num).as_str with
    | Except.error e => Except.error (GpioError.Io e)
    | Except.ok contents =>
      match parseI32 contents with
      | Except.ok val => Except.ok val
      | Except.error why =>
          Except.error (GpioError.Io ⟨IoErrorKind.invalidData, some why⟩)
  value.map (fun val => decide (val > 0))

/-- A filesystem exposing only pin 4's value file, holding `contents`. -/
def fsVal4 (contents : String) : Fs :=
  fun q => if q = "/sys/class/gpio/gpio4/value" then some contents else none

/-- A filesystem exposing the export and unexport control files and pin 4's
value and direction files (the state after the kernel materialized pin 4). -/
def fsFull4 : Fs := fun q =>
  if q = "/sys/class/gpio/export" then some ""
  else if q = "/sys/class/gpio/unexport" then some ""
  else if q = "/sys/class/gpio/gpio4/value" then some "0"
  else if q = "/sys/class/gpio/gpio4/direction" then some "in"
  else none

/-- The empty filesystem: no sysfs GPIO file exists. -/
def fsEmpty : Fs := fun _ => none

theorem open_file_of_some (fs : Fs) (p s : String) (h : fs p = some s) :
    open_file fs p = Except.ok p := by
  unfold open_file
  rw [h]

theorem open_file_of_none (fs : Fs) (p : String) (h : fs p = none) :
    open_file fs p = Except.error (GpioError.Io ⟨IoErrorKind.notFound, none⟩) := by
  unfold open_file
  rw [h]

theorem writeFile_self (fs : Fs) (p s : String) : writeFile fs p s p = some s := by
  unfold writeFile
  simp

theorem writeFile_other (fs : Fs) (p s q : String) (h : q ≠ p) :
    writeFile fs p s q = fs q := by
  unfold writeFile
  simp [h]

/-- Claim C1.  The claim says `write(pin, level)` puts exactly "1" (for true)
or "0" (for false) into the pin's value file.  The code instead writes
`signal.to_string()`, the Rust `Display` rendering of a bool, so the value
file receives "true" / "false" — strings distinct from "1" / "0". -/
theorem write_emits_rust_bool_display :
    (write (fsVal4 "0") 4 true).2 (GpioPaths.VALUE 4).as_str = some "true"
    ∧ (write (fsVal4 "0") 4 false).2 (GpioPaths.VALUE 4).as_str = some "false"
    ∧ "true" ≠ "1" ∧ "false" ≠ "0" :=
  ⟨rfl, rfl, by decide, by decide⟩

/-- Claim C2.  The claimed round trip fails on the code: with pin 4's value
file present, `write(4, true)` succeeds but stores "true", and the following
`read(4)` fails to parse it as an integer, returning an invalid-data I/O
error rather than `Ok(true)`. -/
theorem write_then_read_fails_on_bool_display :
    (write (fsVal4 "0") 4 true).1 = Except.ok ()
    ∧ read ((write (fsVal4 "0") 4 true).2) 4
        = Except.error
            (GpioError.Io ⟨IoErrorKind.invalidData, some ⟨IntErrorKind.invalidDigit⟩⟩)
    ∧ read ((write (fsVal4 "0") 4 true).2) 4 ≠ Except.ok true := by
  have e : read ((write (fsVal4 "0") 4 true).2) 4
      = Except.error
          (GpioError.Io ⟨IoErrorKind.invalidData, some ⟨IntErrorKind.invalidDigit⟩⟩) := rfl
  refine ⟨rfl, e, fun h => ?_⟩
  rw [e] at h
  exact Except.noConfusion h

/-- Claim C3.  On a value file containing "abc", `read` does not surface the
`GpioError::ParseInt` variant: the code converts the parse failure into
`io::Error::new(ErrorKind::InvalidData, why)` inside the I/O pipeline, so the
caller receives the `GpioError::Io` variant for every `ParseIntError`. -/
theorem read_nonint_yields_io_variant :
    read (fsVal4 "abc") 4
      = Except.error
          (GpioError.Io ⟨IoErrorKind.invalidData, some ⟨IntErrorKind.invalidDigit⟩⟩)
    ∧ ∀ pe : ParseIntError,
        read (fsVal4 "abc") 4 ≠ Except.error (GpioError.ParseInt pe) := by
  have e : read (fsVal4 "abc") 4
      = Except.error
          (GpioError.Io ⟨IoErrorKind.invalidData, some ⟨IntErrorKind.invalidDigit⟩⟩) := rfl
  refine ⟨e, fun pe h => ?_⟩
  rw [e] at h
  exact GpioError.noConfusion (Except.error.inj h)

/-- Claim C4.  The claim says `read` parses the trimmed contents, so a value
file holding a decimal integer with a trailing newline reads successfully.
The code calls `parse::<i32>` on the untrimmed string: "1\n" is rejected as
an invalid digit (while the newline-free "1" parses fine), so the read fails
instead of returning true. -/
theorem read_rejects_trailing_newline :
    read (fsVal4 "1\n") 4
      = Except.error
          (GpioError.Io ⟨IoErrorKind.invalidData, some ⟨IntErrorKind.invalidDigit⟩⟩)
    ∧ parseI32 "1\n" = Except.error ⟨IntErrorKind.invalidDigit⟩
    ∧ parseI32 "1" = Except.ok 1 :=
  ⟨rfl, rfl, rfl⟩

/-- Claim C5, counterexample.  The claim treats every parsed value other than
0 as true, including negative integers; the code computes `val > 0`, so a
value file containing "-1" reads as false, not true. -/
theorem read_negative_value_is_false :
    read (fsVal4 "-1") 4 = Except.ok false
    ∧ read (fsVal4 "-1") 4 ≠ Except.ok true := by
  have e : read (fsVal4 "-1") 4 = Except.ok false := rfl
  refine ⟨e, fun h => ?_⟩
  rw [e] at h
  exact Bool.noConfusion (Except.ok.inj h)

/-- Claim C5, amended.  For every pin whose value file parses to an integer
`v`, `read` returns `Ok(v > 0)`: parsed values strictly greater than zero
(such as 2) are true, while 0 and every negative value are false. -/
theorem read_true_iff_parsed_positive (fs : Fs) (n : Int) (s : String) (v : Int)
    (hfile : fs (GpioPaths.VALUE n).as_str = some s)
    (hparse : parseI32 s = Except.ok v) :
    read fs n = Except.ok (decide (v > 0)) := by
  unfold read read_to_string
  rw [hfile]
  dsimp only
  rw [hparse]
  rfl

/-- Witness for the amended C5 theorem at the concrete input "2": the
hypotheses hold by computation and the read returns true. -/
theorem read_true_iff_parsed_positive_witness :
    fsVal4 "2" (GpioPaths.VALUE 4).as_str = some "2"
    ∧ parseI32 "2" = Except.ok 2
    ∧ read (fsVal4 "2") 4 = Except.ok true :=
  ⟨rfl, rfl, read_true_iff_parsed_positive (fsVal4 "2") 4 "2" 2 rfl rfl⟩

/-- Claim C6.  Path resolution is a pure function of the path kind and the
pin number: Export and Unexport map to the two fixed control paths, and
Value(n) / Direction(n) splice the decimal rendering of `n` into the per-pin
path, with no further validation of `n`. -/
theorem path_resolution_spec (n : Int) :
    GpioPaths.EXPORT.as_str = "/sys/class/gpio/export"
    ∧ GpioPaths.UNEXPORT.as_str = "/sys/class/gpio/unexport"
    ∧ (GpioPaths.VALUE n).as_str = "/sys/class/gpio/gpio" ++ toString n ++ "/value"
    ∧ (GpioPaths.DIRECTION n).as_str
        = "/sys/class/gpio/gpio" ++ toString n ++ "/direction" :=
  ⟨rfl, rfl, rfl, rfl⟩

/-- Claim C7.  When the per-pin control files are absent (before export or
after unexport), `set_direction`, `write` and `read` all fail, and the error
is the I/O variant (a not-found error from opening or reading the missing
path). -/
theorem ops_fail_io_without_pin_files (fs : Fs) (n : Int) (v : Bool)
    (d : Directions)
    (hval : fs (GpioPaths.VALUE n).as_str = none)
    (hdir : fs (GpioPaths.DIRECTION n).as_str = none) :
    (write fs n v).1 = Except.error (GpioError.Io ⟨IoErrorKind.notFound, none⟩)
    ∧ read fs n = Except.error (GpioError.Io ⟨IoErrorKind.notFound, none⟩)
    ∧ (set_direction fs n d).1
        = Except.error (GpioError.Io ⟨IoErrorKind.notFound, none⟩) := by
  refine ⟨?_, ?_, ?_⟩
  · unfold write
    rw [open_file_of_none fs _ hval]
  · unfold read read_to_string
    rw [hval]
    rfl
  · unfold set_direction
    rw [open_file_of_none fs _ hdir]

/-- Witness for C7 on the empty filesystem at pin 4. -/
theorem ops_fail_io_without_pin_files_witness :
    fsEmpty (GpioPaths.VALUE 4).as_str = none
    ∧ fsEmpty (GpioPaths.DIRECTION 4).as_str = none
    ∧ (write fsEmpty 4 true).1
        = Except.error (GpioError.Io ⟨IoErrorKind.notFound, none⟩)
    ∧ read fsEmpty 4 = Except.error (GpioError.Io ⟨IoErrorKind.notFound, none⟩)
    ∧ (set_direction fsEmpty 4 Directions.Input).1
        = Except.error (GpioError.Io ⟨IoErrorKind.notFound, none⟩) := by
  have h := ops_fail_io_without_pin_files fsEmpty 4 true Directions.Input rfl rfl
  exact ⟨rfl, rfl, h.1, h.2.1, h.2.2⟩

/-- Claim C8.  With the pin's direction file present, `set_direction` writes
the canonical serialization of the direction to the pin's direction path:
"in" for Input and "out" for Output. -/
theorem set_direction_writes_canonical_string (fs : Fs) (n : Int)
    (d : Directions) (s : String)
    (h : fs (GpioPaths.DIRECTION n).as_str = some s) :
    (set_direction fs n d).1 = Except.ok ()
    ∧ (set_direction fs n d).2 (GpioPaths.DIRECTION n).as_str = some d.as_str
    ∧ Directions.Input.as_str = "in"
    ∧ Directions.Output.as_str = "out" := by
  unfold set_direction
  rw [open_file_of_some fs _ s h]
  exact ⟨rfl, writeFile_self fs (GpioPaths.DIRECTION n).as_str d.as_bytes, rfl, rfl⟩

/-- Witness for C8: on a filesystem exposing pin 4's direction file, setting
Output stores "out" at the direction path. -/
theorem set_direction_writes_canonical_string_witness :
    fsFull4 (GpioPaths.DIRECTION 4).as_str = some "in"
    ∧ (set_direction fsFull4 4 Directions.Output).1 = Except.ok ()
    ∧ (set_direction fsFull4 4 Directions.Output).2 (GpioPaths.DIRECTION 4).as_str
        = some "out" := by
  have h := set_direction_writes_canonical_string fsFull4 4 Directions.Output "in" rfl
  exact ⟨rfl, h.1, h.2.1⟩

/-- Claim C9.  With the export and unexport control files present,
`export(pin)` writes the decimal string form of the pin to the export path
and `unexport(pin)` writes the same decimal string to the unexport path; on
success every other path is left untouched. -/
theorem export_unexport_write_decimal_pin (fs : Fs) (n : Int) (s0 s1 : String)
    (hexp : fs GpioPaths.EXPORT.as_str = some s0)
    (hune : fs GpioPaths.UNEXPORT.as_str = some s1) :
    (export_pin fs n).1 = Except.ok ()
    ∧ (export_pin fs n).2 GpioPaths.EXPORT.as_str = some (toString n)
    ∧ (∀ q, q ≠ GpioPaths.EXPORT.as_str → (export_pin fs n).2 q = fs q)
    ∧ (unexport fs n).1 = Except.ok ()
    ∧ (unexport fs n).2 GpioPaths.UNEXPORT.as_str = some (toString n)
    ∧ (∀ q, q ≠ GpioPaths.UNEXPORT.as_str → (unexport fs n).2 q = fs q) := by
  unfold export_pin unexport
  rw [open_file_of_some fs _ s0 hexp, open_file_of_some fs _ s1 hune]
  exact ⟨rfl, writeFile_self fs GpioPaths.EXPORT.as_str (toString n),
    fun q hq => writeFile_other fs GpioPaths.EXPORT.as_str (toString n) q hq,
    rfl, writeFile_self fs GpioPaths.UNEXPORT.as_str (toString n),
    fun q hq => writeFile_other fs GpioPaths.UNEXPORT.as_str (toString n) q hq⟩

/-- Witness for C9 at pin 4: exporting writes "4" to the export path and
unexporting writes "4" to the unexport path. -/
theorem export_unexport_write_decimal_pin_witness :
    fsFull4 GpioPaths.EXPORT.as_str = some ""
    ∧ fsFull4 GpioPaths.UNEXPORT.as_str = some ""
    ∧ (export_pin fsFull4 4).2 GpioPaths.EXPORT.as_str = some "4"
    ∧ (unexport fsFull4 4).2 GpioPaths.UNEXPORT.as_str = some "4" := by
  have h := export_unexport_write_decimal_pin fsFull4 4 "" "" rfl rfl
  exact ⟨rfl, rfl, h.2.1, h.2.2.2.2.1⟩

/-- Claim C10.  No public operation ever returns the `GpioError::ParseInt`
variant, in any filesystem state: `read` converts its parse failure to an
invalid-data `io::Error` before the `GpioError` wrapping, so every error the
five operations return is the `Io` variant. -/
theorem public_ops_never_return_parseint (fs : Fs) (n : Int) (v : Bool)
    (d : Directions) (pe : ParseIntError) :
    (export_pin fs n).1 ≠ Except.error (GpioError.ParseInt pe)
    ∧ (unexport fs n).1 ≠ Except.error (GpioError.ParseInt pe)
    ∧ (set_direction fs n d).1 ≠ Except.error (GpioError.ParseInt pe)
    ∧ (write fs n v).1 ≠ Except.error (GpioError.ParseInt pe)
    ∧ read fs n ≠ Except.error (GpioError.ParseInt pe) := by
  refine ⟨?_, ?_, ?_, ?_, ?_⟩
  · unfold export_pin open_file
    cases fs GpioPaths.EXPORT.as_str <;> simp
  · unfold unexport open_file
    cases fs GpioPaths.UNEXPORT.as_str <;> simp
  · unfold set_direction open_file
    cases fs (GpioPaths.DIRECTION n).as_str <;> simp
  · unfold write open_file
    cases fs (GpioPaths.VALUE n).as_str <;> simp
  · unfold read read_to_string
    cases fs (GpioPaths.VALUE n).as_str with
    | none => simp [Except.map]
    | some contents =>
      cases hp : parseI32 contents <;> simp [Except.map, hp]

end gpio

